import Mathlib

/-!
Verification of the emulator boundary layer (`emulator/emulator-extern.cpp`):
the JSON stack-value codec, the transaction-dispatch logic (address
resolution, account construction, outcome classification), the get-method
dispatch and the engine setters.

The binary-tree (boc) codec, base64, the TLB unpackers and the execution
engine are external collaborators of this layer; they are modelled from the
spec as abstract data with the interface behaviour the boundary layer
observes (see the doc comments on the individual definitions).
-/

/-- Modelled from the spec: a cell is an opaque, immutable, content-addressed
binary tree bundling raw bits and references to child cells; its identity is
its serialized form.  (`vm::Cell` is outside the shown source.) -/
inductive Cell where
  | mk (bits : List Bool) (refs : List Cell)
deriving Repr

/-- Modelled from the spec: a cell slice is a bounded read cursor over a
cell's bits and child references; at this layer only the remaining bits and
references are observable.  (`vm::CellSlice` is outside the shown source.) -/
structure CellSlice where
  bits : List Bool
  refs : List Cell
deriving Repr

/-- Modelled from the spec: `vm::load_cell_slice_ref` produces a
full-bit-range, full-reference-range slice view over a cell. -/
def load_cell_slice_ref : Cell → CellSlice
  | Cell.mk b r => { bits := b, refs := r }

/-- Modelled from the spec: `vm::CellBuilder().append_cellslice(s).finalize()`
materializes the slice's remaining bits and references into a fresh cell. -/
def append_cellslice_finalize (s : CellSlice) : Cell := Cell.mk s.bits s.refs

/-- Modelled from the spec: the byte blob produced by the opaque
"serialize binary tree with checksum" primitive.  `good c` stands for the
(unique, content-addressed) well-formed one-root checksummed serialization of
cell `c`; `bad t` stands for any malformed blob (bad checksum, not one root,
garbage), tagged with the error text its deserialization reports. -/
inductive BocBytes where
  | good (c : Cell)
  | bad (tag : String)
deriving Repr

/-- Modelled from the spec: `vm::std_boc_serialize` with CRC32C mode; total on
well-formed cells at this layer. -/
def std_boc_serialize (c : Cell) : BocBytes := BocBytes.good c

/-- Modelled from the spec: `vm::std_boc_deserialize`; inverse of
serialization on well-formed blobs, fails on malformed ones. -/
def std_boc_deserialize : BocBytes → Except String Cell
  | BocBytes.good c => Except.ok c
  | BocBytes.bad t => Except.error t

/-- Modelled from the spec: the text content of a JSON string crossing the
boundary, classified by the disjoint classes of concrete strings this layer
distinguishes.  `plain s` is ordinary text (including the `type` tags);
`b64 b` is the base64 rendering of byte blob `b`; `dec n` is the canonical
decimal numeral of `n` (what `dec_string` prints); `hex256 n` is the 64-char
hex rendering of a 256-bit identifier.  The constructors stand for disjoint
classes of concrete strings, so cross-constructor comparisons are never
equal. -/
inductive WireStr where
  | plain (s : String)
  | b64 (b : BocBytes)
  | dec (n : Int)
  | hex256 (n : Nat)
deriving Repr

/-- Modelled from the spec: `td::base64_encode` on a byte blob. -/
def base64_encode (b : BocBytes) : WireStr := WireStr.b64 b

/-- Modelled from the spec: `td::base64_decode`; inverse of `base64_encode`,
fails on text that is not valid base64. -/
def base64_decode : WireStr → Except String BocBytes
  | WireStr.b64 b => Except.ok b
  | _ => Except.error ("Invalid base64")

/-- Text comparison of a wire string against a literal (the C++
`type == "cell"` comparisons); only ordinary text can equal a type tag. -/
def WireStr.isLit : WireStr → String → Bool
  | WireStr.plain s, lit => s == lit
  | _, _ => false

/-- Rendering of a wire string back to text, used when the decoder embeds the
offending `type` tag in its error message. -/
def WireStr.render : WireStr → String
  | WireStr.plain s => s
  | WireStr.b64 _ => "<base64>"
  | WireStr.dec n => toString n
  | WireStr.hex256 n => toString n

/-- The signed 257-bit range check of the VM's integer class. -/
def inRange257 (n : Int) : Bool :=
  decide (-(2 ^ 256) ≤ n) && decide (n < 2 ^ 256)

/-- Modelled from the spec: `td::dec_string_to_int256` parses a decimal
numeral (optional leading minus) and fails if the text is not a numeral or
the value does not fit the supported integer width. -/
def dec_string_to_int256 : WireStr → Option Int
  | WireStr.dec n => if inRange257 n then some n else none
  | _ => none

/-- Modelled from the spec: `dec_string` prints an integer as its canonical
decimal numeral (sign-aware, no redundant leading zeros). -/
def dec_string (n : Int) : WireStr := WireStr.dec n

/-- The JSON value model mirroring `td::JsonValue`
(Null / Boolean / Number / String / Array / Object; an object is an ordered
field list, looked up first-match like `td::get_json_object_field`). -/
inductive Json where
  | null
  | bool (b : Bool)
  | num (n : Int)
  | str (s : WireStr)
  | arr (elems : List Json)
  | obj (fields : List (String × Json))
deriving Repr

/-- First-match field lookup over a JSON object's field list, as
`td::get_json_object_field` iterates the object. -/
def findField : List (String × Json) → String → Option Json
  | [], _ => none
  | (k, v) :: rest, name => if k = name then some v else findField rest name

/-- Modelled from the spec: `td::get_json_object_string_field(obj, name,
/is_optional:=/ false)` — required field; returns a String field's text,
renders a Number field as its numeral, defaults a Null field to empty text,
and fails on any other field type or on a missing field. -/
def get_json_object_string_field (fields : List (String × Json)) (name : String) :
    Except String WireStr :=
  match findField fields name with
  | some (Json.str w) => Except.ok w
  | some (Json.num n) => Except.ok (WireStr.dec n)
  | some Json.null => Except.ok (WireStr.plain (""))
  | some _ => Except.error ("Field must be of type String")
  | none => Except.error ("Can't find field")

/-- Modelled from the spec: `td::get_json_object_field(obj, "value",
String, false)` followed by `value.get_string()` — required field of JSON
string type; fails when absent or of any other JSON type. -/
def getValueStr (fields : List (String × Json)) : Except String WireStr :=
  match findField fields ("value") with
  | some (Json.str w) => Except.ok w
  | some _ => Except.error ("Field value must be of type String")
  | none => Except.error ("Can't find field value")

/-- Modelled from the spec: `td::get_json_object_field(obj, "value",
Array, false)` followed by `value.get_array()` — required field of JSON
array type; fails when absent or of any other JSON type. -/
def getValueArr (fields : List (String × Json)) : Except String (List Json) :=
  match findField fields ("value") with
  | some (Json.arr xs) => Except.ok xs
  | some _ => Except.error ("Field value must be of type Array")
  | none => Except.error ("Can't find field value")

/-- Size bound for the recursive decoder: a successfully looked-up field is
structurally smaller than the object it came from. -/
def findField_sizeOf :
    (fields : List (String × Json)) → (name : String) → (v : Json) →
    findField fields name = some v → sizeOf v < sizeOf fields
  | [], _, _, h => by simp [findField] at h
  | (k, x) :: rest, name, v, h => by
      by_cases hk : k = name
      · simp only [findField, if_pos hk] at h
        cases h
        simp
        omega
      · simp only [findField, if_neg hk] at h
        have := findField_sizeOf rest name v h
        simp
        omega

/-- Size bound for the recursive decoder's tuple case: the element list of a
successfully extracted `value` array is smaller than the enclosing object. -/
def getValueArr_sizeOf (fields : List (String × Json)) (xs : List Json)
    (h : getValueArr fields = Except.ok xs) : sizeOf xs < sizeOf (Json.obj fields) := by
  unfold getValueArr at h
  cases hf : findField fields ("value") with
  | none => rw [hf] at h; exact absurd h (by simp)
  | some v =>
      rw [hf] at h
      cases v with
      | arr elems =>
          simp at h
          subst h
          have := findField_sizeOf fields ("value") (Json.arr elems) hf
          simp at this ⊢
          omega
      | null => simp at h
      | bool b => simp at h
      | num n => simp at h
      | str s => simp at h
      | obj fs => simp at h

/-- Kinds of `vm::StackEntry` outside the five variants the codec supports
(`t_builder`, `t_vmcont`, `t_box`, `t_atom`). -/
inductive OtherEntryKind where
  | builder
  | vmcont
  | box
  | atom
deriving Repr

/-- The tagged stack value (`vm::StackEntry`): cell, cell slice, integer,
tuple, null, plus the variants the codec does not support. -/
inductive StackEntry where
  | cell (c : Cell)
  | slice (s : CellSlice)
  | int (n : Int)
  | tuple (xs : List StackEntry)
  | null
  | other (k : OtherEntryKind)
deriving Repr

mutual

/-- Shallow embedding of `from_emulator_api`
(`emulator-extern.cpp:12-56`): decode one JSON value into a stack entry,
branching on the required `type` tag and recursing over tuple elements. -/
def from_emulator_api : Json → Except String StackEntry
  | Json.obj fields =>
    match get_json_object_string_field fields ("type") with
    | Except.error e => Except.error e
    | Except.ok ty =>
      if ty.isLit ("cell") then
        match getValueStr fields with
        | Except.error e => Except.error e
        | Except.ok w =>
          match base64_decode w with
          | Except.error e => Except.error e
          | Except.ok b =>
            match std_boc_deserialize b with
            | Except.error e => Except.error e
            | Except.ok c => Except.ok (StackEntry.cell c)
      else if ty.isLit ("cell_slice") then
        match getValueStr fields with
        | Except.error e => Except.error e
        | Except.ok w =>
          match base64_decode w with
          | Except.error e => Except.error e
          | Except.ok b =>
            match std_boc_deserialize b with
            | Except.error e => Except.error e
            | Except.ok c => Except.ok (StackEntry.slice (load_cell_slice_ref c))
      else if ty.isLit ("number") then
        match getValueStr fields with
        | Except.error e => Except.error e
        | Except.ok w =>
          match dec_string_to_int256 w with
          | none => Except.error ("Error parsing string to int256")
          | some n => Except.ok (StackEntry.int n)
      else if ty.isLit ("tuple") then
        match h : getValueArr fields with
        | Except.error e => Except.error e
        | Except.ok xs =>
          match from_emulator_api_list xs with
          | Except.error e => Except.error e
          | Except.ok es => Except.ok (StackEntry.tuple es)
      else if ty.isLit ("null") then
        Except.ok StackEntry.null
      else
        Except.error ("Unsupported type: " ++ ty.render)
  | _ => Except.error ("Stack entry of object type expected")
termination_by j => sizeOf j
decreasing_by
  simp_wf
  have := getValueArr_sizeOf fields xs h
  simp at this ⊢
  omega

/-- The element loop of `from_emulator_api`'s tuple case (and of the stack
loop in `tvm_emulator_run_get_method`): decode each element in order,
stopping at the first failure. -/
def from_emulator_api_list : List Json → Except String (List StackEntry)
  | [] => Except.ok []
  | x :: xs =>
    match from_emulator_api x with
    | Except.error e => Except.error e
    | Except.ok v =>
      match from_emulator_api_list xs with
      | Except.error e => Except.error e
      | Except.ok vs => Except.ok (v :: vs)
termination_by xs => sizeOf xs
decreasing_by
  all_goals simp_wf <;> omega

end

mutual

/-- Shallow embedding of `StackEntryJsonable::store`
(`emulator-extern.cpp:64-117`): render one stack entry as its tagged JSON
object.  Total; entries outside the five supported variants fall into the
default branch.  The C++ renders tuple elements into a raw JSON text later
embedded verbatim; the model keeps them as a JSON array directly, which is
the value that raw text denotes. -/
def StackEntryJsonable.store : StackEntry → Json
  | StackEntry.cell c =>
      Json.obj [(("type"), Json.str (WireStr.plain ("cell"))),
                (("value"), Json.str (base64_encode (std_boc_serialize c)))]
  | StackEntry.slice s =>
      Json.obj [(("type"), Json.str (WireStr.plain ("cell_slice"))),
                (("value"),
                 Json.str (base64_encode (std_boc_serialize (append_cellslice_finalize s))))]
  | StackEntry.int n =>
      Json.obj [(("type"), Json.str (WireStr.plain ("number"))),
                (("value"), Json.str (dec_string n))]
  | StackEntry.tuple xs =>
      Json.obj [(("type"), Json.str (WireStr.plain ("tuple"))),
                (("value"), Json.arr (storeList xs))]
  | StackEntry.null =>
      Json.obj [(("type"), Json.str (WireStr.plain ("null"))),
                (("value"), Json.null)]
  | StackEntry.other _ =>
      Json.obj [(("type"), Json.str (WireStr.plain ("UNSUPPORTED STACK ENTRY TYPE"))),
                (("value"), Json.null)]

/-- The element loop of `StackEntryJsonable::store`'s tuple case (and of
`StackJsonable::store`): render each entry in order. -/
def storeList : List StackEntry → List Json
  | [] => []
  | x :: xs => StackEntryJsonable.store x :: storeList xs

end

mutual

/-- The entries of the five supported variants with in-range integers — the
values `from_emulator_api` can produce and the round-trip ranges over. -/
def validEntry : StackEntry → Bool
  | StackEntry.cell _ => true
  | StackEntry.slice _ => true
  | StackEntry.int n => inRange257 n
  | StackEntry.tuple xs => validEntryList xs
  | StackEntry.null => true
  | StackEntry.other _ => false

/-- Element-wise validity of a tuple's entries. -/
def validEntryList : List StackEntry → Bool
  | [] => true
  | x :: xs => validEntry x && validEntryList xs

end

/-- Shallow embedding of `success_response` (`emulator-extern.cpp:134-143`). -/
def success_response (transaction new_shard_account vm_log : String) : Json :=
  Json.obj [(("success"), Json.bool true),
            (("transaction"), Json.str (WireStr.plain transaction)),
            (("shard_account"), Json.str (WireStr.plain new_shard_account)),
            (("vm_log"), Json.str (WireStr.plain vm_log))]

/-- Shallow embedding of `error_response` (`emulator-extern.cpp:145-152`),
the plain Failure shape. -/
def error_response (e : String) : Json :=
  Json.obj [(("success"), Json.bool false),
            (("error"), Json.str (WireStr.plain e))]

/-- Shallow embedding of `external_not_accepted_response`
(`emulator-extern.cpp:154-163`), the Rejected shape. -/
def external_not_accepted_response (vm_log : String) (vm_exit_code : Int) : Json :=
  Json.obj [(("success"), Json.bool false),
            (("error"), Json.str (WireStr.plain ("External message not accepted by smart contract"))),
            (("vm_log"), Json.str (WireStr.plain vm_log)),
            (("vm_exit_code"), Json.num vm_exit_code)]

/-- Modelled from the spec: the outcome of
`block::tlb::t_MsgAddressInt.extract_std_address` on an address slice — a
(workchain, 256-bit address) pair, or failure on a malformed field. -/
inductive AddrView where
  | std (wc : Int) (addr : Nat)
  | bad
deriving Repr

/-- Modelled from the spec: the common-header view of the decoded message
cell — the tag read by `block::gen::t_CommonMsgInfo.get_tag` together with
the result of `tlb::unpack` of the matching record (`none` = the record
unpack fails; the payload is the header's destination-address field). -/
inductive MsgView where
  | extIn (info : Option AddrView)
  | intIn (info : Option AddrView)
  | other
deriving Repr

/-- Modelled from the spec: the tagged variant of the shard account's inner
account cell, read by `block::gen::t_Account.get_tag` — the "none" variant,
or the existing-account record with its own address field (`none` = the
`Record_account` unpack fails). -/
inductive AccountView where
  | acc_none
  | existing (addr : Option AddrView)
deriving Repr

/-- Modelled from the spec: the decoded shard-account cell — either its
`ShardAccount` record fails to unpack, or it carries the inner account
variant plus whether the later `block::Account::unpack` of the whole
envelope succeeds. -/
inductive SAView where
  | badUnpack
  | ok (acc : AccountView) (accUnpackOk : Bool)
deriving Repr

/-- Modelled from the spec: a base64 boc input as the dispatcher observes it:
malformed base64, well-formed base64 of a malformed boc, or a decoded value
(the deserialized cell seen through its TLB view `α`). -/
inductive BocInput (α : Type) where
  | badB64 (e : String)
  | badBoc (e : String)
  | ok (v : α)
deriving Repr

/-- Modelled from the spec: the slice of the active configuration this layer
reads — the special-contract set consulted by `is_special_smartcontract`. -/
structure Config where
  specialSmcs : List Nat
deriving Repr

/-- Modelled from the spec: `block::Config::is_special_smartcontract` —
membership of the address in the configuration's special-contract set. -/
def Config.is_special_smartcontract (c : Config) (addr : Nat) : Bool :=
  c.specialSmcs.contains addr

/-- Modelled from the spec: the mutable state of an
`emulator::TransactionEmulator` handle — the active configuration plus the
setter-controlled knobs (time, logical time, random seed, signature-check
bypass, library set). -/
structure TransactionEmulator where
  config : Config
  unixtime : Nat
  lt : Nat
  randSeed : Nat
  ignoreChksig : Bool
  libs : Option Nat
deriving Repr

/-- The distinguished masterchain workchain id (`ton::masterchainId`). -/
def masterchainId : Int := -1

/-- Modelled from the spec: the logical account object as constructed and
unpacked at `emulator-extern.cpp:255-260` — `block::Account(wc, addr)`
stamped by `unpack` with the time value `now` and the privileged flag. -/
structure Account where
  wc : Int
  addr : Nat
  now : Nat
  is_special : Bool
deriving Repr

/-- Modelled from the spec: the payload of the engine's Success outcome as
this layer consumes it — the serialization outcomes of the produced
transaction and of the re-packed shard-account envelope (the
`store_ref`/`store_bits`/`store_long` triple of lines 280-287), plus the
execution log.  Serialization failures surface as the `Except.error` the
boundary layer reports. -/
structure EmulationSuccessR where
  transactionSer : Except String String
  newStateSer : Except String String
  vmLog : String

/-- Modelled from the spec: the tagged outcome of
`TransactionEmulator::emulate_transaction` — an engine-level error, the
"external message not accepted" outcome with its log and exit code, or
success. -/
inductive EmulationResult where
  | error (e : String)
  | notAccepted (vmLog : String) (exitCode : Int)
  | success (s : EmulationSuccessR)

/-- Shallow embedding of the address-resolution branch of
`transaction_emulator_emulate_transaction` (`emulator-extern.cpp:223-248`):
on the "none" account variant the address slice comes from the inbound
message's destination field (external-inbound or internal-inbound only); on
an existing account it comes from the account record's own address field.
Errors carry the exact Failure response the code returns. -/
def resolve_addr_slice (acc : AccountView) (msg : MsgView) : Except Json AddrView :=
  match acc with
  | AccountView.acc_none =>
    match msg with
    | MsgView.extIn none => Except.error (error_response ("Can't unpack inbound external message"))
    | MsgView.extIn (some d) => Except.ok d
    | MsgView.intIn none => Except.error (error_response ("Can't unpack inbound internal message"))
    | MsgView.intIn (some d) => Except.ok d
    | MsgView.other => Except.error (error_response ("Only ext in and int message are supported"))
  | AccountView.existing none => Except.error (error_response ("Can't unpack account cell"))
  | AccountView.existing (some a) => Except.ok a

/-- Shallow embedding of `transaction_emulator_emulate_transaction`
(`emulator-extern.cpp:194-290`).  `wallClock` is the value of
`std::time(nullptr)` at the call (line 256); `engine` is the external
`emulate_transaction` entry point, invoked on the constructed account (the
message cell and the ordinary transaction kind are fixed for the call). -/
def transaction_emulator_emulate_transaction
    (emu : TransactionEmulator) (wallClock : Nat)
    (engine : Account → EmulationResult)
    (shard_account_boc : BocInput SAView) (message_boc : BocInput MsgView) : Json :=
  match message_boc with
  | BocInput.badB64 e => error_response ("Can't decode base64 message boc: " ++ e)
  | BocInput.badBoc e => error_response ("Can't deserialize message boc: " ++ e)
  | BocInput.ok msg =>
    match shard_account_boc with
    | BocInput.badB64 e => error_response ("Can't decode base64 shard account boc: " ++ e)
    | BocInput.badBoc e => error_response ("Can't deserialize shard account boc: " ++ e)
    | BocInput.ok SAView.badUnpack => error_response ("Can't unpack shard account cell")
    | BocInput.ok (SAView.ok acc accUnpackOk) =>
      match resolve_addr_slice acc msg with
      | Except.error resp => resp
      | Except.ok AddrView.bad => error_response ("Can't extract account address")
      | Except.ok (AddrView.std wc addr) =>
        let is_special := decide (wc = masterchainId) && emu.config.is_special_smartcontract addr
        let account : Account := { wc := wc, addr := addr, now := wallClock, is_special := is_special }
        if accUnpackOk = false then error_response ("Can't unpack shard account")
        else
          match engine account with
          | EmulationResult.error e => error_response ("Emulate transaction failed: " ++ e)
          | EmulationResult.notAccepted l c => external_not_accepted_response l c
          | EmulationResult.success s =>
            match s.transactionSer with
            | Except.error e => error_response ("Can't serialize Transaction to boc" ++ e)
            | Except.ok t =>
              match s.newStateSer with
              | Except.error e => error_response ("Can't serialize ShardAccount to boc" ++ e)
              | Except.ok a => success_response t a s.vmLog

/-- Shallow embedding of `transaction_emulator_set_unixtime`
(`emulator-extern.cpp:292-298`). -/
def transaction_emulator_set_unixtime (emu : TransactionEmulator) (unixtime : Nat) :
    Bool × TransactionEmulator :=
  (true, { emu with unixtime := unixtime })

/-- Shallow embedding of `transaction_emulator_set_lt`
(`emulator-extern.cpp:300-306`). -/
def transaction_emulator_set_lt (emu : TransactionEmulator) (lt : Nat) :
    Bool × TransactionEmulator :=
  (true, { emu with lt := lt })

/-- Modelled from the spec: a rand-seed argument as the setter observes it —
its character length, and the result of `td::hex_decode` on it (`none` =
not valid hex). -/
structure HexStr where
  len : Nat
  decoded : Option Nat
deriving Repr

/-- Shallow embedding of `transaction_emulator_set_rand_seed`
(`emulator-extern.cpp:308-326`): reject any string whose length is not 64,
then reject hex-decode failures, else install the 256-bit seed. -/
def transaction_emulator_set_rand_seed (emu : TransactionEmulator) (rand_seed_hex : HexStr) :
    Bool × TransactionEmulator :=
  if rand_seed_hex.len ≠ 64 then (false, emu)
  else
    match rand_seed_hex.decoded with
    | none => (false, emu)
    | some seed => (true, { emu with randSeed := seed })

/-- Shallow embedding of `transaction_emulator_set_ignore_chksig`
(`emulator-extern.cpp:328-334`). -/
def transaction_emulator_set_ignore_chksig (emu : TransactionEmulator) (b : Bool) :
    Bool × TransactionEmulator :=
  (true, { emu with ignoreChksig := b })

/-- Modelled from the spec: a config boc argument as `decode_config`
classifies it — malformed base64, malformed boc, well-formed boc whose
parameters fail to unpack, or a good configuration. -/
inductive ConfigBocInput where
  | badB64 (e : String)
  | badBoc (e : String)
  | badUnpack (e : String)
  | ok (c : Config)
deriving Repr

/-- Shallow embedding of `decode_config` (`emulator-extern.cpp:167-182`),
with the error prefixes the code attaches at each stage. -/
def decode_config : ConfigBocInput → Except String Config
  | ConfigBocInput.badB64 e => Except.error ("Can't decode base64 config params boc: " ++ e)
  | ConfigBocInput.badBoc e => Except.error ("Can't deserialize config params boc: " ++ e)
  | ConfigBocInput.badUnpack e => Except.error ("Can't unpack config params: " ++ e)
  | ConfigBocInput.ok c => Except.ok c

/-- Shallow embedding of `transaction_emulator_set_config`
(`emulator-extern.cpp:336-348`): decode failures report `false` and leave
the handle untouched. -/
def transaction_emulator_set_config (emu : TransactionEmulator) (config_boc : ConfigBocInput) :
    Bool × TransactionEmulator :=
  match decode_config config_boc with
  | Except.error _ => (false, emu)
  | Except.ok c => (true, { emu with config := c })

/-- Modelled from the spec: a shardchain-libraries boc argument — malformed
base64, malformed boc, or a good 256-bit-keyed dictionary (opaque at this
layer). -/
inductive LibsBocInput where
  | badB64 (e : String)
  | badBoc (e : String)
  | ok (dict : Nat)
deriving Repr

/-- Shallow embedding of `transaction_emulator_set_libs`
(`emulator-extern.cpp:350-368`): a null pointer is accepted without change;
decode failures report `false` and leave the handle untouched. -/
def transaction_emulator_set_libs (emu : TransactionEmulator)
    (shardchain_libs_boc : Option LibsBocInput) : Bool × TransactionEmulator :=
  match shardchain_libs_boc with
  | none => (true, emu)
  | some (LibsBocInput.badB64 _) => (false, emu)
  | some (LibsBocInput.badBoc _) => (false, emu)
  | some (LibsBocInput.ok d) => (true, { emu with libs := some d })

/-- Modelled from the spec: the result record of
`TvmEmulator::run_get_method` as this layer consumes it — final stack, gas
consumed, exit code, execution log, and the unresolved-library identifier
(`none` when `result.missing_library.is_null()`). -/
structure GetMethodResult where
  stack : List StackEntry
  gas_used : Int
  code : Int
  vm_log : String
  missing_library : Option Nat

/-- Shallow embedding of `tvm_emulator_run_get_method`
(`emulator-extern.cpp:479-518`).  `stack_json` is the result of
`td::json_decode` on the raw argument; `engine` is the external
`run_get_method` entry point. -/
def tvm_emulator_run_get_method (engine : Int → List StackEntry → GetMethodResult)
    (method_id : Int) (stack_json : Except String Json) : Json :=
  match stack_json with
  | Except.error e => error_response ("Couldn't decode stack json: " ++ e)
  | Except.ok (Json.arr js) =>
    match from_emulator_api_list js with
    | Except.error e => error_response ("Error parsing stack: " ++ e)
    | Except.ok es =>
      let result := engine method_id es
      Json.obj [(("success"), Json.bool true),
                (("stack"), Json.arr (storeList result.stack)),
                (("gas_used"), Json.str (WireStr.dec result.gas_used)),
                (("vm_exit_code"), Json.num result.code),
                (("vm_log"), Json.str (WireStr.plain result.vm_log)),
                (("missing_library"),
                 match result.missing_library with
                 | none => Json.null
                 | some id => Json.str (WireStr.hex256 id))]
  | Except.ok _ => error_response ("Stack of type array expected")

/-- Field lookup on a JSON response object, for stating which value a
response carries under a given key. -/
def responseField (j : Json) (name : String) : Option Json :=
  match j with
  | Json.obj fields => findField fields name
  | _ => none

/-- Whether a JSON value is an object — the shape every encoder output must
have. -/
def Json.isObj : Json → Bool
  | Json.obj _ => true
  | _ => false

/-- Whether a JSON value is a string, the shape the `cell`, `cell_slice` and
`number` decode paths require of `value`. -/
def Json.isStr : Json → Bool
  | Json.str _ => true
  | _ => false

/-- Whether a JSON value is an array, the shape the `tuple` decode path
requires of `value`. -/
def Json.isArr : Json → Bool
  | Json.arr _ => true
  | _ => false

/-- A concrete emulator handle state used to instantiate the theorems below
on explicit inputs. -/
def emu0 : TransactionEmulator :=
  { config := { specialSmcs := [] }, unixtime := 0, lt := 0, randSeed := 0,
    ignoreChksig := false, libs := none }

/-- C1: when the shard-account decodes to the "none" variant the resolved
address slice is the inbound message's destination field, for both the
external-inbound and internal-inbound kinds; when it decodes to an existing
account record the resolved slice is the record's own address field,
whatever the message is. -/
theorem resolve_addr_slice_correct (d b : AddrView) (m : MsgView) :
    resolve_addr_slice AccountView.acc_none (MsgView.extIn (some d)) = Except.ok d ∧
    resolve_addr_slice AccountView.acc_none (MsgView.intIn (some d)) = Except.ok d ∧
    resolve_addr_slice (AccountView.existing (some b)) m = Except.ok b :=
  ⟨rfl, rfl, rfl⟩

/-- C5: a "none" account variant combined with a message whose
common-header tag is neither external-inbound nor internal-inbound yields
the Failure response naming the unsupported message kind; the dispatcher is
a total function, so no input crashes. -/
theorem unsupported_message_kind_failure (emu : TransactionEmulator) (wallClock : Nat)
    (engine : Account → EmulationResult) (u : Bool) :
    transaction_emulator_emulate_transaction emu wallClock engine
      (BocInput.ok (SAView.ok AccountView.acc_none u)) (BocInput.ok MsgView.other)
      = error_response ("Only ext in and int message are supported") := rfl

/-- C7: stack-value encoding is total — every entry, including the variants
outside the five supported ones, produces a well-formed JSON object, and the
unsupported variants produce exactly the sentinel-tagged object with a null
value. -/
theorem encode_total :
    (∀ e : StackEntry, (StackEntryJsonable.store e).isObj = true) ∧
    (∀ k : OtherEntryKind, StackEntryJsonable.store (StackEntry.other k) =
      Json.obj [(("type"), Json.str (WireStr.plain ("UNSUPPORTED STACK ENTRY TYPE"))),
                (("value"), Json.null)]) := by
  constructor
  · intro e
    cases e <;> simp [StackEntryJsonable.store, Json.isObj]
  · intro k
    simp [StackEntryJsonable.store]

/-- C4: the dispatcher stamps the constructed account with the wall-clock
time of the call (`std::time(nullptr)`, line 256), not with the synthetic
unixtime configured through `transaction_emulator_set_unixtime` — here the
handle is configured to synthetic time 1000, the wall clock reads 2000, and
the account handed to the engine carries `now = 2000`. -/
theorem account_time_stamp_bug :
    (transaction_emulator_set_unixtime emu0 1000).2.unixtime = 1000 ∧
    transaction_emulator_emulate_transaction (transaction_emulator_set_unixtime emu0 1000).2 2000
      (fun a => EmulationResult.error (toString a.now))
      (BocInput.ok (SAView.ok (AccountView.existing (some (AddrView.std 0 7))) true))
      (BocInput.ok MsgView.other)
      = error_response ("Emulate transaction failed: 2000") :=
  ⟨rfl, rfl⟩

/-- C8: every fallible setter — rand seed with a string whose length is not
64, rand seed that is not valid hex, config with a malformed boc (at any of
its three decode stages), libraries with a malformed boc — returns `false`
and leaves the whole handle state unchanged. -/
theorem setters_fail_leave_state :
    (∀ (emu : TransactionEmulator) (s : HexStr), s.len ≠ 64 →
        transaction_emulator_set_rand_seed emu s = (false, emu)) ∧
    (∀ (emu : TransactionEmulator) (s : HexStr), s.decoded = none →
        transaction_emulator_set_rand_seed emu s = (false, emu)) ∧
    (∀ (emu : TransactionEmulator) (e : String),
        transaction_emulator_set_config emu (ConfigBocInput.badB64 e) = (false, emu) ∧
        transaction_emulator_set_config emu (ConfigBocInput.badBoc e) = (false, emu) ∧
        transaction_emulator_set_config emu (ConfigBocInput.badUnpack e) = (false, emu) ∧
        transaction_emulator_set_libs emu (some (LibsBocInput.badB64 e)) = (false, emu) ∧
        transaction_emulator_set_libs emu (some (LibsBocInput.badBoc e)) = (false, emu)) := by
  refine ⟨?_, ?_, ?_⟩
  · intro emu s h
    simp [transaction_emulator_set_rand_seed, h]
  · intro emu s h
    by_cases hl : s.len = 64
    · simp [transaction_emulator_set_rand_seed, hl, h]
    · simp [transaction_emulator_set_rand_seed, hl]
  · intro emu e
    exact ⟨rfl, rfl, rfl, rfl, rfl⟩

/-- Witness for C8 at concrete inputs: a 5-character seed string and a
64-character non-hex string are both rejected without touching the state. -/
theorem setters_fail_leave_state_witness :
    ((⟨5, some 3⟩ : HexStr).len ≠ 64 ∧
      transaction_emulator_set_rand_seed emu0 ⟨5, some 3⟩ = (false, emu0)) ∧
    ((⟨64, none⟩ : HexStr).decoded = none ∧
      transaction_emulator_set_rand_seed emu0 ⟨64, none⟩ = (false, emu0)) :=
  ⟨⟨by decide, setters_fail_leave_state.1 emu0 ⟨5, some 3⟩ (by decide)⟩,
   ⟨rfl, setters_fail_leave_state.2.1 emu0 ⟨64, none⟩ rfl⟩⟩

/-- C3: whenever the engine's outcome at the constructed account is the
"external message not accepted" result with log `L` and exit code `E`, the
response is exactly the Rejected JSON object
`{success:false, error:"External message not accepted by smart contract",
vm_log:L, vm_exit_code:E}`, and it is never the plain Failure shape. -/
theorem rejected_outcome_response (emu : TransactionEmulator) (wallClock : Nat)
    (engine : Account → EmulationResult) (wc : Int) (addr : Nat)
    (acc : AccountView) (m : MsgView) (L : String) (E : Int)
    (hres : resolve_addr_slice acc m = Except.ok (AddrView.std wc addr))
    (h : engine { wc := wc, addr := addr, now := wallClock,
                  is_special := decide (wc = masterchainId) &&
                    emu.config.is_special_smartcontract addr }
         = EmulationResult.notAccepted L E) :
    transaction_emulator_emulate_transaction emu wallClock engine
        (BocInput.ok (SAView.ok acc true)) (BocInput.ok m)
      = external_not_accepted_response L E ∧
    ∀ e, transaction_emulator_emulate_transaction emu wallClock engine
        (BocInput.ok (SAView.ok acc true)) (BocInput.ok m)
      ≠ error_response e := by
  have hmain : transaction_emulator_emulate_transaction emu wallClock engine
      (BocInput.ok (SAView.ok acc true)) (BocInput.ok m)
      = external_not_accepted_response L E := by
    simp [transaction_emulator_emulate_transaction, hres, h]
  refine ⟨hmain, ?_⟩
  intro e
  rw [hmain]
  simp [external_not_accepted_response, error_response]

/-- Witness for C3 at a concrete input: an engine that rejects with exit
code 33, an existing account at workchain 0, address 7. -/
theorem rejected_outcome_response_witness :
    (resolve_addr_slice (AccountView.existing (some (AddrView.std 0 7))) MsgView.other
      = Except.ok (AddrView.std 0 7)) ∧
    ((fun _ : Account => EmulationResult.notAccepted ("log") 33)
        { wc := 0, addr := 7, now := 100,
          is_special := decide ((0 : Int) = masterchainId) &&
            emu0.config.is_special_smartcontract 7 }
      = EmulationResult.notAccepted ("log") 33) ∧
    transaction_emulator_emulate_transaction emu0 100
        (fun _ => EmulationResult.notAccepted ("log") 33)
        (BocInput.ok (SAView.ok (AccountView.existing (some (AddrView.std 0 7))) true))
        (BocInput.ok MsgView.other)
      = external_not_accepted_response ("log") 33 :=
  ⟨rfl, rfl,
   (rejected_outcome_response emu0 100 (fun _ => EmulationResult.notAccepted ("log") 33)
      0 7 (AccountView.existing (some (AddrView.std 0 7))) MsgView.other ("log") 33
      rfl rfl).1⟩

/-- Decoding the encoder's output for a cell entry recovers the entry. -/
theorem roundtrip_cell (c : Cell) :
    from_emulator_api (StackEntryJsonable.store (StackEntry.cell c))
      = Except.ok (StackEntry.cell c) := by
  simp [StackEntryJsonable.store, from_emulator_api, get_json_object_string_field, findField,
        getValueStr, WireStr.isLit, base64_encode, base64_decode, std_boc_serialize,
        std_boc_deserialize]

/-- Decoding the encoder's output for a cell-slice entry recovers the entry:
the slice's remaining bits and references are materialized into a fresh
cell, and decoding wraps that cell back into a full-range slice. -/
theorem roundtrip_slice (s : CellSlice) :
    from_emulator_api (StackEntryJsonable.store (StackEntry.slice s))
      = Except.ok (StackEntry.slice s) := by
  simp [StackEntryJsonable.store, from_emulator_api, get_json_object_string_field, findField,
        getValueStr, WireStr.isLit, base64_encode, base64_decode, std_boc_serialize,
        std_boc_deserialize, append_cellslice_finalize, load_cell_slice_ref]

/-- Decoding the encoder's output for an in-range integer entry recovers the
entry. -/
theorem roundtrip_int (n : Int) (h : inRange257 n = true) :
    from_emulator_api (StackEntryJsonable.store (StackEntry.int n))
      = Except.ok (StackEntry.int n) := by
  simp [StackEntryJsonable.store, from_emulator_api, get_json_object_string_field, findField,
        getValueStr, WireStr.isLit, dec_string, dec_string_to_int256, h]

/-- Decoding the encoder's output for the null entry recovers it. -/
theorem roundtrip_null :
    from_emulator_api (StackEntryJsonable.store StackEntry.null)
      = Except.ok StackEntry.null := by
  simp [StackEntryJsonable.store, from_emulator_api, get_json_object_string_field, findField,
        WireStr.isLit]

/-- An element of a valid entry list is itself valid. -/
theorem validEntryList_mem {xs : List StackEntry} (h : validEntryList xs = true)
    {x : StackEntry} (hx : x ∈ xs) : validEntry x = true := by
  induction xs with
  | nil => cases hx
  | cons y ys ih =>
      simp [validEntryList] at h
      cases hx with
      | head => exact h.1
      | tail _ ht => exact ih h.2 ht

/-- The decode loop is the pointwise inverse of the encode loop. -/
theorem from_emulator_api_list_store (xs : List StackEntry)
    (hstep : ∀ x ∈ xs, from_emulator_api (StackEntryJsonable.store x) = Except.ok x) :
    from_emulator_api_list (storeList xs) = Except.ok xs := by
  induction xs with
  | nil => simp [storeList, from_emulator_api_list]
  | cons y ys ih =>
      have hy := hstep y (List.mem_cons_self y ys)
      have hys := ih (fun x hx => hstep x (List.mem_cons_of_mem y hx))
      simp [storeList, from_emulator_api_list, hy, hys]

/-- Decoding the encoder's output for a tuple entry recovers it, given the
round-trip for each element. -/
theorem roundtrip_tuple_step (xs : List StackEntry)
    (hstep : ∀ x ∈ xs, from_emulator_api (StackEntryJsonable.store x) = Except.ok x) :
    from_emulator_api (StackEntryJsonable.store (StackEntry.tuple xs))
      = Except.ok (StackEntry.tuple xs) := by
  have hlist := from_emulator_api_list_store xs hstep
  simp [StackEntryJsonable.store, from_emulator_api, get_json_object_string_field, findField,
        getValueArr, WireStr.isLit, hlist]

/-- C2: for every stack value of the five supported variants (with the
integer in the supported width, recursively), decoding the JSON produced by
encoding it yields the value back — cells and cell slices compare equal
because the model identifies a cell with its serialized content, tuples
element-wise in order, integers by value. -/
theorem stack_value_roundtrip (v : StackEntry) (h : validEntry v = true) :
    from_emulator_api (StackEntryJsonable.store v) = Except.ok v := by
  suffices H : ∀ (n : Nat) (w : StackEntry), sizeOf w ≤ n → validEntry w = true →
      from_emulator_api (StackEntryJsonable.store w) = Except.ok w from
    H (sizeOf v) v le_rfl h
  intro n
  induction n with
  | zero =>
      intro w hw _
      cases w <;> simp at hw
  | succ n ih =>
      intro w hw hval
      cases w with
      | cell c => exact roundtrip_cell c
      | slice s => exact roundtrip_slice s
      | int m =>
          apply roundtrip_int
          simpa [validEntry] using hval
      | null => exact roundtrip_null
      | other k => simp [validEntry] at hval
      | tuple xs =>
          apply roundtrip_tuple_step
          intro x hx
          have hvx : validEntry x = true :=
            validEntryList_mem (by simpa [validEntry] using hval) hx
          have hsx : sizeOf x < sizeOf (StackEntry.tuple xs) := by
            have := List.sizeOf_lt_of_mem hx
            simp
            omega
          exact ih x (by simp at hw hsx; omega) hvx

/-- Witness for C2 at a concrete nested value: a tuple holding an integer, a
null, a cell and a cell slice. -/
theorem stack_value_roundtrip_witness :
    validEntry (StackEntry.tuple [StackEntry.int 5, StackEntry.null,
      StackEntry.cell (Cell.mk [true] []), StackEntry.slice ⟨[false], []⟩]) = true ∧
    from_emulator_api (StackEntryJsonable.store (StackEntry.tuple [StackEntry.int 5,
      StackEntry.null, StackEntry.cell (Cell.mk [true] []),
      StackEntry.slice ⟨[false], []⟩]))
      = Except.ok (StackEntry.tuple [StackEntry.int 5, StackEntry.null,
          StackEntry.cell (Cell.mk [true] []), StackEntry.slice ⟨[false], []⟩]) := by
  have hval : validEntry (StackEntry.tuple [StackEntry.int 5, StackEntry.null,
      StackEntry.cell (Cell.mk [true] []), StackEntry.slice ⟨[false], []⟩]) = true := by
    simp [validEntry, validEntryList, inRange257]
  exact ⟨hval, stack_value_roundtrip _ hval⟩

/-- C6: stack-value decode fails on every input that is not a JSON object,
and on every object whose `type` field is a string other than `cell`,
`cell_slice`, `number`, `tuple` or `null` — no other type string is
accepted. -/
theorem decode_rejects_malformed :
    (∀ j : Json, j.isObj = false →
        from_emulator_api j = Except.error ("Stack entry of object type expected")) ∧
    (∀ (fields : List (String × Json)) (s : String),
        get_json_object_string_field fields ("type") = Except.ok (WireStr.plain s) →
        s ≠ "cell" → s ≠ "cell_slice" → s ≠ "number" → s ≠ "tuple" → s ≠ "null" →
        from_emulator_api (Json.obj fields) = Except.error ("Unsupported type: " ++ s)) := by
  constructor
  · intro j hj
    cases j <;> simp [Json.isObj] at hj ⊢ <;> simp [from_emulator_api]
  · intro fields s hty h1 h2 h3 h4 h5
    simp [from_emulator_api, hty, WireStr.isLit, h1, h2, h3, h4, h5, WireStr.render]

/-- Witness for C6 at concrete inputs: a top-level array, and an object
tagged with the unknown type string `foo`. -/
theorem decode_rejects_malformed_witness :
    ((Json.arr []).isObj = false ∧
      from_emulator_api (Json.arr [])
        = Except.error ("Stack entry of object type expected")) ∧
    (get_json_object_string_field [(("type"), Json.str (WireStr.plain ("foo")))] ("type")
        = Except.ok (WireStr.plain ("foo")) ∧
      from_emulator_api (Json.obj [(("type"), Json.str (WireStr.plain ("foo")))])
        = Except.error ("Unsupported type: " ++ "foo")) :=
  ⟨⟨rfl, decode_rejects_malformed.1 (Json.arr []) rfl⟩,
   ⟨rfl, decode_rejects_malformed.2 [(("type"), Json.str (WireStr.plain ("foo")))] ("foo")
      rfl (by decide) (by decide) (by decide) (by decide) (by decide)⟩⟩

/-- On the tuple decode path, a failure of the `value` array extraction is
the decoder's result. -/
theorem from_emulator_api_tuple_value_error (fields : List (String × Json)) (e : String)
    (hty : get_json_object_string_field fields ("type") = Except.ok (WireStr.plain ("tuple")))
    (ha : getValueArr fields = Except.error e) :
    from_emulator_api (Json.obj fields) = Except.error e := by
  simp only [from_emulator_api, hty]
  simp only [WireStr.isLit]
  simp
  split
  next e' h' =>
    rw [ha] at h'
    injection h' with h''
    rw [h'']
  next xs h' =>
    rw [ha] at h'
    cases h'

/-- C10: an object whose `type` field is `null` decodes to the Null entry
even when it has no `value` field at all (the `value` field is never read on
that path), while every other supported type fails when `value` is absent or
not of the JSON shape that type requires. -/
theorem decode_null_ignores_value :
    (∀ fields, get_json_object_string_field fields ("type") = Except.ok (WireStr.plain ("null")) →
        from_emulator_api (Json.obj fields) = Except.ok StackEntry.null) ∧
    (∀ fields t, (t = "cell" ∨ t = "cell_slice" ∨ t = "number") →
        get_json_object_string_field fields ("type") = Except.ok (WireStr.plain t) →
        findField fields ("value") = none →
        from_emulator_api (Json.obj fields) = Except.error ("Can't find field value")) ∧
    (∀ fields t v, (t = "cell" ∨ t = "cell_slice" ∨ t = "number") →
        get_json_object_string_field fields ("type") = Except.ok (WireStr.plain t) →
        findField fields ("value") = some v → v.isStr = false →
        from_emulator_api (Json.obj fields)
          = Except.error ("Field value must be of type String")) ∧
    (∀ fields, get_json_object_string_field fields ("type") = Except.ok (WireStr.plain ("tuple")) →
        findField fields ("value") = none →
        from_emulator_api (Json.obj fields) = Except.error ("Can't find field value")) ∧
    (∀ fields v, get_json_object_string_field fields ("type") = Except.ok (WireStr.plain ("tuple")) →
        findField fields ("value") = some v → v.isArr = false →
        from_emulator_api (Json.obj fields)
          = Except.error ("Field value must be of type Array")) := by
  refine ⟨?_, ?_, ?_, ?_, ?_⟩
  · intro fields hty
    simp [from_emulator_api, hty, WireStr.isLit]
  · intro fields t htv hty hv
    rcases htv with h | h | h <;> subst h <;>
      simp [from_emulator_api, hty, WireStr.isLit, getValueStr, hv]
  · intro fields t v htv hty hv hvs
    rcases htv with h | h | h <;> subst h <;>
      cases v <;> simp [Json.isStr] at hvs <;>
      simp [from_emulator_api, hty, WireStr.isLit, getValueStr, hv]
  · intro fields hty hv
    exact from_emulator_api_tuple_value_error fields _ hty (by simp [getValueArr, hv])
  · intro fields v hty hv hva
    refine from_emulator_api_tuple_value_error fields _ hty ?_
    cases v <;> simp [Json.isArr] at hva <;> simp [getValueArr, hv]

/-- Witness for C10 at concrete inputs: `{type:"null"}` with no value field
decodes to Null; `{type:"cell"}` with no value field fails; `{type:"number",
value:[]}` fails on the wrong value shape; `{type:"tuple"}` with no value
field fails; `{type:"tuple", value:"x"}` fails on the wrong value shape. -/
theorem decode_null_ignores_value_witness :
    (get_json_object_string_field [(("type"), Json.str (WireStr.plain ("null")))] ("type")
        = Except.ok (WireStr.plain ("null")) ∧
      from_emulator_api (Json.obj [(("type"), Json.str (WireStr.plain ("null")))])
        = Except.ok StackEntry.null) ∧
    (from_emulator_api (Json.obj [(("type"), Json.str (WireStr.plain ("cell")))])
        = Except.error ("Can't find field value")) ∧
    (from_emulator_api (Json.obj [(("type"), Json.str (WireStr.plain ("number"))),
        (("value"), Json.arr [])])
        = Except.error ("Field value must be of type String")) ∧
    (from_emulator_api (Json.obj [(("type"), Json.str (WireStr.plain ("tuple")))])
        = Except.error ("Can't find field value")) ∧
    (from_emulator_api (Json.obj [(("type"), Json.str (WireStr.plain ("tuple"))),
        (("value"), Json.str (WireStr.plain ("x")))])
        = Except.error ("Field value must be of type Array")) :=
  ⟨⟨rfl, decode_null_ignores_value.1 _ rfl⟩,
   decode_null_ignores_value.2.1 _ ("cell") (Or.inl rfl) rfl rfl,
   decode_null_ignores_value.2.2.1 _ ("number") (Json.arr [])
     (Or.inr (Or.inr rfl)) rfl rfl rfl,
   decode_null_ignores_value.2.2.2.1 _ rfl rfl,
   decode_null_ignores_value.2.2.2.2 _ (Json.str (WireStr.plain ("x"))) rfl rfl rfl⟩

/-- C9: for every get-method call whose input stack decodes successfully,
the response keeps `success` at `true` and carries `missing_library` as
`null` exactly when the engine reports no unresolved library, and as the
hex text of the 256-bit identifier otherwise. -/
theorem get_method_missing_library (engine : Int → List StackEntry → GetMethodResult)
    (mid : Int) (js : List Json) (es : List StackEntry)
    (h : from_emulator_api_list js = Except.ok es) :
    responseField (tvm_emulator_run_get_method engine mid (Except.ok (Json.arr js))) ("success")
        = some (Json.bool true) ∧
    ((engine mid es).missing_library = none →
      responseField (tvm_emulator_run_get_method engine mid (Except.ok (Json.arr js)))
          ("missing_library") = some Json.null) ∧
    (∀ id, (engine mid es).missing_library = some id →
      responseField (tvm_emulator_run_get_method engine mid (Except.ok (Json.arr js)))
          ("missing_library") = some (Json.str (WireStr.hex256 id))) := by
  refine ⟨?_, ?_, ?_⟩
  · simp [tvm_emulator_run_get_method, h, responseField, findField]
  · intro hm
    simp [tvm_emulator_run_get_method, h, responseField, findField, hm]
  · intro id hm
    simp [tvm_emulator_run_get_method, h, responseField, findField, hm]

/-- Witness for C9 at concrete inputs: the empty stack decodes, one engine
reports no missing library and one reports identifier 5. -/
theorem get_method_missing_library_witness :
    (from_emulator_api_list [] = Except.ok [] ∧
      responseField (tvm_emulator_run_get_method (fun _ _ => ⟨[], 0, 0, "", none⟩) 0
          (Except.ok (Json.arr []))) ("missing_library") = some Json.null) ∧
    responseField (tvm_emulator_run_get_method (fun _ _ => ⟨[], 0, 0, "", some 5⟩) 0
        (Except.ok (Json.arr []))) ("missing_library")
      = some (Json.str (WireStr.hex256 5)) := by
  have hnil : from_emulator_api_list ([] : List Json) = Except.ok [] := by
    simp [from_emulator_api_list]
  exact ⟨⟨hnil, (get_method_missing_library (fun _ _ => ⟨[], 0, 0, "", none⟩) 0 [] [] hnil).2.1 rfl⟩,
    (get_method_missing_library (fun _ _ => ⟨[], 0, 0, "", some 5⟩) 0 [] [] hnil).2.2 5 rfl⟩
